import Mathlib

/-!
Verification of the plugin-service core of a cross-platform mobile CLI.

The source is a single TypeScript class, `PluginsService`. We embed the
parts of it the claims need, shallowly:

* JSON objects whose values are strings (dependency sections, per-file
  digest sets) are association lists `List (String × α)` with unique-key
  JavaScript object semantics: lookup finds the first binding, assignment
  replaces an existing binding in place or appends, `delete` removes the
  binding.
* JavaScript truthiness of a looked-up string value (`obj[key]` used as a
  condition) is false exactly when the key is absent or the value is the
  empty string.
* Thrown exceptions become `Except`-shaped outcomes or explicit
  result records carrying an `outcome` field; external collaborators
  (package manager, platform hooks, the files-hash service, semver) are
  parameters or are modelled from the specification where noted.
-/

set_option autoImplicit false

namespace PluginsService

/-- A JSON object with values of type `α`, as an association list.
Keys are unique (JavaScript object semantics). -/
abbrev Amap (α : Type) := List (String × α)

/-- `obj[key]`: the first binding for `key`, if any. -/
def alookup {α : Type} : Amap α → String → Option α
  | [], _ => none
  | (k, v) :: rest, key => if k = key then some v else alookup rest key

/-- `delete obj[key]`: remove the binding for `key`. -/
def aerase {α : Type} : Amap α → String → Amap α
  | [], _ => []
  | (k, v) :: rest, key =>
    if k = key then aerase rest key else (k, v) :: aerase rest key

/-- `obj[key] = v`: replace the existing binding in place, or append. -/
def ainsert {α : Type} : Amap α → String → α → Amap α
  | [], key, v => [(key, v)]
  | (k, w) :: rest, key, v =>
    if k = key then (key, v) :: rest else (k, w) :: ainsert rest key v

@[simp] theorem alookup_nil {α : Type} (key : String) :
    alookup ([] : Amap α) key = none := rfl

@[simp] theorem alookup_ainsert_self {α : Type} (m : Amap α) (key : String) (v : α) :
    alookup (ainsert m key v) key = some v := by
  induction m with
  | nil => simp [ainsert, alookup]
  | cons p rest ih =>
    by_cases h : p.1 = key
    · simp [ainsert, alookup, h]
    · simp [ainsert, alookup, h, ih]

theorem alookup_ainsert_ne {α : Type} (m : Amap α) (key other : String) (v : α)
    (h : other ≠ key) : alookup (ainsert m key v) other = alookup m other := by
  induction m with
  | nil => simp [ainsert, alookup, Ne.symm h]
  | cons p rest ih =>
    by_cases hk : p.1 = key
    · subst hk
      simp [ainsert, alookup, Ne.symm h]
    · simp only [ainsert, hk, if_false]
      by_cases ho : p.1 = other
      · simp [alookup, ho]
      · simp [alookup, ho, ih]

@[simp] theorem alookup_aerase_self {α : Type} (m : Amap α) (key : String) :
    alookup (aerase m key) key = none := by
  induction m with
  | nil => simp [aerase]
  | cons p rest ih =>
    by_cases h : p.1 = key
    · simpa [aerase, h] using ih
    · have hpk : p.1 ≠ key := h
      simpa [aerase, alookup, hpk, h] using ih

theorem alookup_aerase_ne {α : Type} (m : Amap α) (key other : String)
    (h : other ≠ key) : alookup (aerase m key) other = alookup m other := by
  induction m with
  | nil => simp [aerase]
  | cons p rest ih =>
    by_cases hk : p.1 = key
    · have hpo : p.1 ≠ other := by
        rw [hk]; exact Ne.symm h
      simp [aerase, hk, alookup, hpo, Ne.symm h, ih]
    · by_cases ho : p.1 = other
      · simp [aerase, hk, alookup, ho, h]
      · simp [aerase, hk, alookup, ho, ih]

/-! ## Manifest mutator

Embeds `addToPackageJson`, `removeFromPackageJson` and the private
`removeDependencyFromPackageJsonContent`. A `package.json` is modelled by
its two dependency sections; a section that is missing from the document
is `none` (the source guards each access with
`packageJsonContent[key] && ...` or defaults it with `|| {}`). -/

/-- A string-valued section of `package.json` (name ↦ version). -/
abbrev Smap := Amap String

/-- The dependency sections of a `package.json` document. -/
structure PackageJsonContent where
  dependencies : Option Smap
  devDependencies : Option Smap
deriving DecidableEq

/-- JavaScript truthiness of `section && section[key]` applied to a
looked-up version string: false when the key is absent or the stored
string is empty. -/
def truthyVersion (v : Option String) : Bool :=
  match v with
  | none => false
  | some s => s != ""

/-- Look a key up in a possibly missing section. -/
def sectionLookup (sec : Option Smap) (key : String) : Option String :=
  match sec with
  | none => none
  | some m => alookup m key

/-- Result of `removeDependencyFromPackageJsonContent`. -/
structure RemoveDependencyResult where
  hasModifiedPackageJson : Bool
  packageJsonContent : PackageJsonContent
deriving DecidableEq

/-- `removeDependencyFromPackageJsonContent`: delete `dependency` from
`devDependencies` and then from `dependencies`, each guarded by
`section && section[dependency]`; report whether anything was deleted. -/
def removeDependencyFromPackageJsonContent (dependency : String)
    (packageJsonContent : PackageJsonContent) : RemoveDependencyResult :=
  let devHit := truthyVersion (sectionLookup packageJsonContent.devDependencies dependency)
  let c1 :=
    if devHit then
      { packageJsonContent with
        devDependencies := packageJsonContent.devDependencies.map (fun m => aerase m dependency) }
    else packageJsonContent
  let depHit := truthyVersion (sectionLookup c1.dependencies dependency)
  let c2 :=
    if depHit then
      { c1 with dependencies := c1.dependencies.map (fun m => aerase m dependency) }
    else c1
  { hasModifiedPackageJson := devHit || depHit, packageJsonContent := c2 }

/-- `addToPackageJson`: when the opposite section holds a truthy entry for
`plugin`, run the remover first; then set `plugin ↦ version` in the target
section (created with `|| {}` when missing) and write the document back.
The returned content is what `writeJson` persists (it always writes). -/
def addToPackageJson (plugin version : String) (isDev : Bool)
    (packageJsonContent : PackageJsonContent) : PackageJsonContent :=
  let oppositeEntry :=
    if isDev then sectionLookup packageJsonContent.dependencies plugin
    else sectionLookup packageJsonContent.devDependencies plugin
  let c1 :=
    if truthyVersion oppositeEntry then
      (removeDependencyFromPackageJsonContent plugin packageJsonContent).packageJsonContent
    else packageJsonContent
  if isDev then
    { c1 with devDependencies := some (ainsert (c1.devDependencies.getD []) plugin version) }
  else
    { c1 with dependencies := some (ainsert (c1.dependencies.getD []) plugin version) }

/-- Result of `removeFromPackageJson`: the content of the manifest file on
disk after the call, and whether `writeJson` was invoked. -/
structure RemoveFromPackageJsonResult where
  diskContent : PackageJsonContent
  wroteFile : Bool
deriving DecidableEq

/-- `removeFromPackageJson`: remove `plugin` from both sections and write
the file back only when `hasModifiedPackageJson` is set. -/
def removeFromPackageJson (plugin : String)
    (disk : PackageJsonContent) : RemoveFromPackageJsonResult :=
  let result := removeDependencyFromPackageJsonContent plugin disk
  if result.hasModifiedPackageJson then
    { diskContent := result.packageJsonContent, wroteFile := true }
  else
    { diskContent := disk, wroteFile := false }

/-! ## Incremental native-build cache

Embeds `preparePluginNativeCode`, `getAllPluginsNativeHashes` and
`setPluginNativeHashes`. The environment a single call sees is captured in
`PrepEnv`: whether the plugin's `platforms/<platform>` folder exists, the
state of the per-platform ledger file, the digest set the files-hash
service computes for the folder's current files, and whether the
platform's native-integration hook succeeds when invoked. The call's
observable behaviour is a `PrepResult`: how many times the hook was
invoked, the payload of every `writeJson` call on the ledger file, and
whether the call returned normally or propagated an exception. -/

/-- A digest set: relative file path ↦ content digest. -/
abbrev Digests := Amap String

/-- A ledger: plugin name ↦ digest set. -/
abbrev Ledger := Amap Digests

/-- Modelled from the spec: `$filesHashService.hasChangesInShasums` is not
under `src/`; the spec says the digest-sets differ when any file was
added, removed, or changed, with path-plus-digest equality as the
comparison key. -/
def hasChangesInShasums (oldHashes currentHashes : Digests) : Bool :=
  (oldHashes.map Prod.fst ++ currentHashes.map Prod.fst).any
    (fun k => alookup oldHashes k != alookup currentHashes k)

/-- State of the ledger file on disk: `none` when the file does not exist,
`some (.error ())` when it exists but its content does not parse,
`some (.ok data)` when it parses to `data`. -/
abbrev LedgerFile := Option (Except Unit Ledger)

/-- Environment of one `preparePluginNativeCode` call. -/
structure PrepEnv where
  folderExists : Bool
  ledgerFile : LedgerFile
  currentHashes : Digests
  hookOk : Bool

/-- Observable behaviour of one `preparePluginNativeCode` call. -/
structure PrepResult where
  hookCalls : Nat
  ledgerWrites : List Ledger
  outcome : Except Unit Unit

/-- `getAllPluginsNativeHashes`: `data = {}` unless the ledger file
exists, in which case `$fs.readJson` is called — and `readJson` raises
when the content does not parse (there is no catch in the source). -/
def getAllPluginsNativeHashes (ledgerFile : LedgerFile) : Except Unit Ledger :=
  match ledgerFile with
  | none => .ok []
  | some (.error e) => .error e
  | some (.ok data) => .ok data

/-- `setPluginNativeHashes`: store the current digest set under the plugin
name in the loaded ledger; the result is the `writeJson` payload. -/
def setPluginNativeHashes (allPluginsNativeHashes : Ledger) (pluginName : String)
    (currentPluginNativeHashes : Digests) : Ledger :=
  ainsert allPluginsNativeHashes pluginName currentPluginNativeHashes

/-- `preparePluginNativeCode` for one plugin and one platform. Mirrors the
source: no-op when the plugin has no `platforms/<platform>` folder; load
the ledger; integrate and persist when the stored digest set is absent or
`hasChangesInShasums` reports a difference; skip otherwise. A hook
failure propagates before `setPluginNativeHashes` runs. -/
def preparePluginNativeCode (pluginName : String) (env : PrepEnv) : PrepResult :=
  if env.folderExists then
    match getAllPluginsNativeHashes env.ledgerFile with
    | .error e => { hookCalls := 0, ledgerWrites := [], outcome := .error e }
    | .ok allPluginsNativeHashes =>
      let oldPluginNativeHashes := alookup allPluginsNativeHashes pluginName
      let currentPluginNativeHashes := env.currentHashes
      let mustIntegrate :=
        match oldPluginNativeHashes with
        | none => true
        | some oldHashes => hasChangesInShasums oldHashes currentPluginNativeHashes
      if mustIntegrate then
        if env.hookOk then
          { hookCalls := 1,
            ledgerWrites :=
              [setPluginNativeHashes allPluginsNativeHashes pluginName currentPluginNativeHashes],
            outcome := .ok () }
        else
          { hookCalls := 1, ledgerWrites := [], outcome := .error () }
      else
        { hookCalls := 0, ledgerWrites := [], outcome := .ok () }
  else
    { hookCalls := 0, ledgerWrites := [], outcome := .ok () }

/-! ## Installer / remover

Embeds `remove`, `add` and `executeForAllInstalledPlatforms` as traces of
the externally visible calls they make. -/

/-- The calls `remove` makes to its collaborators, in order. -/
inductive RemoveEvent where
  | removePluginNativeCode (platform : String)
  | npmUninstall (pluginName : String)
  | rmPluginDir (platform pluginName : String)
deriving DecidableEq

/-- Recognizer for the package-manager uninstall event. -/
def RemoveEvent.isNpmUninstall : RemoveEvent → Bool
  | .npmUninstall _ => true
  | _ => false

/-- JavaScript's `toLowerCase` on the ASCII platform names in use,
character by character. -/
def jsToLowerCase (s : String) : String :=
  ⟨s.data.map Char.toLower⟩

/-- `executeForAllInstalledPlatforms`: the platforms that get visited, in
platform-enumeration order — every available platform name, lowercased,
whose directory exists under the project's platforms directory. -/
def installedPlatforms (platformNames : List String) (isInstalled : String → Bool) :
    List String :=
  (platformNames.map jsToLowerCase).filter isInstalled

/-- The first `executeForAllInstalledPlatforms` pass of `remove`: invoke
the native-code-removal hook on each platform in order. The loop body is
plain `await action(...)` — there is no catch, so a hook failure ends the
loop and propagates. Returns the hook invocations made and whether the
pass completed. -/
def removeHookPass (platforms : List String) (hookOk : String → Bool) :
    List RemoveEvent × Bool :=
  match platforms with
  | [] => ([], true)
  | p :: rest =>
    if hookOk p then
      let tail := removeHookPass rest hookOk
      (.removePluginNativeCode p :: tail.1, tail.2)
    else
      ([.removePluginNativeCode p], false)

/-- `remove`: run the native-code-removal hook pass over all installed
platforms, then `executeNpmCommand uninstall` once, then a second pass
deleting `<modulesDestinationPath>/<pluginName>` on each platform. An
exception in the hook pass propagates and nothing after it runs. -/
def remove (pluginName : String) (platformNames : List String)
    (isInstalled : String → Bool) (hookOk : String → Bool) :
    List RemoveEvent × Except Unit Unit :=
  let platforms := installedPlatforms platformNames isInstalled
  let hookPass := removeHookPass platforms hookOk
  if hookPass.2 then
    (hookPass.1 ++ [.npmUninstall pluginName]
      ++ platforms.map (fun p => .rmPluginDir p pluginName), .ok ())
  else
    (hookPass.1, .error ())

/-- The calls `add` makes to the package manager, in order. -/
inductive AddEvent where
  | pmInstall (specifier : String)
  | pmUninstall (packageName : String)
deriving DecidableEq

/-- What the package manager resolves the specifier to: the installed
package's canonical name and version, and whether its own `package.json`
carries the `nativescript` key. -/
structure AddEnv where
  resolvedName : String
  resolvedVersion : String
  hasNativescriptKey : Bool

/-- The exact message `$errors.fail` receives on the rollback path. -/
def notValidPluginMessage (specifier : String) : String :=
  specifier ++ " is not a valid NativeScript plugin. Verify that the plugin package.json file contains a nativescript key and try again."

/-- Modelled from the spec: the package-manager collaborator's `install`
with `save: true` records `{name: version}` in the manifest's
dependencies section. (The package manager is an external collaborator;
only its interface appears in the source.) -/
def pmInstallSave (dependencies : Smap) (name version : String) : Smap :=
  ainsert dependencies name version

/-- Modelled from the spec: the package-manager collaborator's `uninstall`
with `save: true` erases the entry for `name` from the manifest's
dependencies section. -/
def pmUninstallSave (dependencies : Smap) (name : String) : Smap :=
  aerase dependencies name

/-- `add`: install the specifier (after the optional local-archive path
rewrite, which `specifier` here already reflects); read the installed
package's real `package.json`; when it lacks the `nativescript` key,
uninstall by the resolved name and fail with the validation message.
Returns the package-manager calls, the final dependencies section of the
manifest, and the outcome. The validation pass on the success path only
warns and is not observable here. -/
def add (specifier : String) (env : AddEnv) (dependencies : Smap) :
    List AddEvent × Smap × Except String Unit :=
  let afterInstall := pmInstallSave dependencies env.resolvedName env.resolvedVersion
  if env.hasNativescriptKey then
    ([.pmInstall specifier], afterInstall, .ok ())
  else
    ([.pmInstall specifier, .pmUninstall env.resolvedName],
      pmUninstallSave afterInstall env.resolvedName,
      .error (notValidPluginMessage specifier))

/-! ## Version compatibility validator -/

/-- Return value and warnings of `isPluginDataValidForPlatform`. -/
structure ValidationResult where
  isValid : Bool
  warnings : List String
deriving DecidableEq

/-- The warning for a plugin that does not support the platform. -/
def notSupportedWarning (pluginName platform : String) : String :=
  pluginName ++ " is not supported for " ++ platform ++ "."

/-- The warning for a plugin whose declared minimum exceeds the installed
framework version. -/
def minVersionWarning (pluginName versionRequiredByPlugin platform
    installedFrameworkVersion : String) : String :=
  pluginName ++ " requires at least version " ++ versionRequiredByPlugin
    ++ " of platform " ++ platform ++ ". Currently installed version is "
    ++ installedFrameworkVersion ++ "."

/-- `isPluginDataValidForPlatform`. `platformsData` is the plugin's
`platformsDataService` mapping (`nativescript.platforms`), absent when the
plugin metadata declares none — the whole check is inside
`if (pluginPlatformsData)`. The semantic greater-than comparison is the
external `semver.gt`, passed as `semverGt`. A looked-up requirement is
used through JavaScript truthiness, so an empty string counts as no
requirement. -/
def isPluginDataValidForPlatform (pluginName : String) (platformsData : Option Smap)
    (platform installedFrameworkVersion : String)
    (semverGt : String → String → Bool) : ValidationResult :=
  match platformsData with
  | none => { isValid := true, warnings := [] }
  | some pluginPlatformsData =>
    match alookup pluginPlatformsData platform with
    | none =>
      { isValid := false, warnings := [notSupportedWarning pluginName platform] }
    | some versionRequiredByPlugin =>
      if versionRequiredByPlugin = "" then
        { isValid := false, warnings := [notSupportedWarning pluginName platform] }
      else if semverGt versionRequiredByPlugin installedFrameworkVersion then
        { isValid := false,
          warnings := [minVersionWarning pluginName versionRequiredByPlugin
            platform installedFrameworkVersion] }
      else
        { isValid := true, warnings := [] }

/-! ## Helper lemmas -/

theorem hasChangesInShasums_self (d : Digests) : hasChangesInShasums d d = false := by
  simp [hasChangesInShasums]

/-! ## Claims about the incremental native-build cache -/

/-- Claim C1: for a plugin whose native-assets folder exists, when the
digest set computed in a prepare pass equals the digest set the ledger
stores for the plugin, `preparePluginNativeCode` makes zero
native-integration hook calls and performs no ledger write. -/
theorem C1_unchanged_digests_skip_integration (pluginName : String) (led : Ledger)
    (stored : Digests) (hookOk : Bool)
    (h : alookup led pluginName = some stored) :
    preparePluginNativeCode pluginName
        { folderExists := true, ledgerFile := some (.ok led),
          currentHashes := stored, hookOk := hookOk } =
      { hookCalls := 0, ledgerWrites := [], outcome := .ok () } := by
  simp [preparePluginNativeCode, getAllPluginsNativeHashes, h, hasChangesInShasums_self]

theorem C1_unchanged_digests_skip_integration_witness :
    preparePluginNativeCode "foo"
        { folderExists := true,
          ledgerFile := some (.ok [("foo", [("Info.plist", "d1")])]),
          currentHashes := [("Info.plist", "d1")], hookOk := true } =
      { hookCalls := 0, ledgerWrites := [], outcome := .ok () } :=
  C1_unchanged_digests_skip_integration "foo" [("foo", [("Info.plist", "d1")])]
    [("Info.plist", "d1")] true (by decide)

/-- Claim C2: for a plugin whose native-assets folder exists, when the
ledger has no entry for the plugin or the freshly computed digest set
differs from the stored one, `preparePluginNativeCode` invokes the
native-integration hook exactly once; if the hook succeeds the ledger is
written once with the plugin mapped to the new digest set, and if the
hook fails no ledger write happens and the failure propagates. -/
theorem C2_changed_digests_integrate_once (pluginName : String) (led : Ledger)
    (current : Digests) (hookOk : Bool)
    (h : alookup led pluginName = none ∨
      ∃ oldHashes, alookup led pluginName = some oldHashes ∧
        hasChangesInShasums oldHashes current = true) :
    (preparePluginNativeCode pluginName
        { folderExists := true, ledgerFile := some (.ok led),
          currentHashes := current, hookOk := hookOk }).hookCalls = 1 ∧
    (hookOk = true →
      preparePluginNativeCode pluginName
          { folderExists := true, ledgerFile := some (.ok led),
            currentHashes := current, hookOk := hookOk } =
        { hookCalls := 1,
          ledgerWrites := [setPluginNativeHashes led pluginName current],
          outcome := .ok () } ∧
      alookup (setPluginNativeHashes led pluginName current) pluginName = some current) ∧
    (hookOk = false →
      preparePluginNativeCode pluginName
          { folderExists := true, ledgerFile := some (.ok led),
            currentHashes := current, hookOk := hookOk } =
        { hookCalls := 1, ledgerWrites := [], outcome := .error () }) := by
  have hmust :
      (match alookup led pluginName with
        | none => true
        | some oldHashes => hasChangesInShasums oldHashes current) = true := by
    rcases h with h | ⟨oldHashes, hfind, hchg⟩
    · simp [h]
    · simp [hfind, hchg]
  refine ⟨?_, ?_, ?_⟩
  · cases hookOk <;>
      simp [preparePluginNativeCode, getAllPluginsNativeHashes, hmust]
  · intro hok
    subst hok
    refine ⟨?_, ?_⟩
    · simp [preparePluginNativeCode, getAllPluginsNativeHashes, hmust]
    · simp [setPluginNativeHashes]
  · intro hko
    subst hko
    simp [preparePluginNativeCode, getAllPluginsNativeHashes, hmust]

theorem C2_changed_digests_integrate_once_witness :
    (preparePluginNativeCode "foo"
        { folderExists := true, ledgerFile := some (.ok []),
          currentHashes := [("build.gradle", "d2")], hookOk := true }).hookCalls = 1 ∧
    (true = true →
      preparePluginNativeCode "foo"
          { folderExists := true, ledgerFile := some (.ok []),
            currentHashes := [("build.gradle", "d2")], hookOk := true } =
        { hookCalls := 1,
          ledgerWrites := [setPluginNativeHashes [] "foo" [("build.gradle", "d2")]],
          outcome := .ok () } ∧
      alookup (setPluginNativeHashes [] "foo" [("build.gradle", "d2")]) "foo" =
        some [("build.gradle", "d2")]) ∧
    (true = false →
      preparePluginNativeCode "foo"
          { folderExists := true, ledgerFile := some (.ok []),
            currentHashes := [("build.gradle", "d2")], hookOk := true } =
        { hookCalls := 1, ledgerWrites := [], outcome := .error () }) :=
  C2_changed_digests_integrate_once "foo" [] [("build.gradle", "d2")] true (Or.inl rfl)

/-- Claim C3 counterexample: with the ledger file present but unparsable,
`preparePluginNativeCode` propagates the read error as a fatal outcome,
invokes the integration hook zero times, and writes no ledger — the
claim says a corrupt ledger is treated as empty, never propagated, with
one hook call and a ledger write. -/
theorem C3_corrupt_ledger_error_propagates :
    preparePluginNativeCode "foo"
        { folderExists := true, ledgerFile := some (.error ()),
          currentHashes := [("include.gradle", "d3")], hookOk := true } =
      { hookCalls := 0, ledgerWrites := [], outcome := .error () } := rfl

/-- Claim C3 amended: a missing ledger file is treated as an empty
ledger — the plugin counts as never integrated, the hook runs once, and
a ledger holding the plugin's digest set is written; a ledger file that
exists but does not parse, however, makes the load error propagate: no
hook call and no ledger write happen. -/
theorem C3_missing_ledger_empty_corrupt_fatal :
    (∀ pluginName : String, ∀ current : Digests,
      preparePluginNativeCode pluginName
          { folderExists := true, ledgerFile := none,
            currentHashes := current, hookOk := true } =
        { hookCalls := 1, ledgerWrites := [[(pluginName, current)]], outcome := .ok () } ∧
      alookup [(pluginName, current)] pluginName = some current) ∧
    (∀ pluginName : String, ∀ current : Digests, ∀ hookOk : Bool,
      preparePluginNativeCode pluginName
          { folderExists := true, ledgerFile := some (.error ()),
            currentHashes := current, hookOk := hookOk } =
        { hookCalls := 0, ledgerWrites := [], outcome := .error () }) := by
  refine ⟨fun pluginName current => ⟨?_, ?_⟩, fun pluginName current hookOk => ?_⟩
  · simp [preparePluginNativeCode, getAllPluginsNativeHashes, setPluginNativeHashes,
      alookup, ainsert]
  · simp [alookup]
  · simp [preparePluginNativeCode, getAllPluginsNativeHashes]

/-- Claim C10: a prepare pass for plugin P never writes a ledger that
removes or modifies another plugin's entry — the only payload it can
write is the loaded mapping with P's entry replaced, and that payload
agrees with the loaded mapping on every other plugin name. -/
theorem C10_prepare_preserves_other_entries (pluginName other : String)
    (led : Ledger) (current : Digests) (folderExists hookOk : Bool)
    (hne : other ≠ pluginName) :
    ((preparePluginNativeCode pluginName
        { folderExists := folderExists, ledgerFile := some (.ok led),
          currentHashes := current, hookOk := hookOk }).ledgerWrites = [] ∨
      (preparePluginNativeCode pluginName
        { folderExists := folderExists, ledgerFile := some (.ok led),
          currentHashes := current, hookOk := hookOk }).ledgerWrites =
        [setPluginNativeHashes led pluginName current]) ∧
    alookup (setPluginNativeHashes led pluginName current) other = alookup led other := by
  refine ⟨?_, ?_⟩
  · cases folderExists with
    | false => simp [preparePluginNativeCode]
    | true =>
      cases hold : alookup led pluginName with
      | none =>
        cases hookOk <;>
          simp [preparePluginNativeCode, getAllPluginsNativeHashes, hold]
      | some oldHashes =>
        by_cases hc : hasChangesInShasums oldHashes current = true <;>
          cases hookOk <;>
          simp [preparePluginNativeCode, getAllPluginsNativeHashes, hold, hc]
  · exact alookup_ainsert_ne led pluginName other current hne

theorem C10_prepare_preserves_other_entries_witness :
    ((preparePluginNativeCode "foo"
        { folderExists := true,
          ledgerFile := some (.ok [("bar", [("a.txt", "d4")])]),
          currentHashes := [("b.txt", "d5")], hookOk := true }).ledgerWrites = [] ∨
      (preparePluginNativeCode "foo"
        { folderExists := true,
          ledgerFile := some (.ok [("bar", [("a.txt", "d4")])]),
          currentHashes := [("b.txt", "d5")], hookOk := true }).ledgerWrites =
        [setPluginNativeHashes [("bar", [("a.txt", "d4")])] "foo" [("b.txt", "d5")]]) ∧
    alookup (setPluginNativeHashes [("bar", [("a.txt", "d4")])] "foo" [("b.txt", "d5")]) "bar" =
      alookup [("bar", [("a.txt", "d4")])] "bar" :=
  C10_prepare_preserves_other_entries "foo" "bar" [("bar", [("a.txt", "d4")])]
    [("b.txt", "d5")] true true (by decide)

/-! ## Claims about the remove flow -/

theorem removeHookPass_all_ok (platforms : List String) (hookOk : String → Bool)
    (h : ∀ p ∈ platforms, hookOk p = true) :
    removeHookPass platforms hookOk =
      (platforms.map RemoveEvent.removePluginNativeCode, true) := by
  induction platforms with
  | nil => rfl
  | cons p rest ih =>
    have hp := h p (List.mem_cons_self p rest)
    simp [removeHookPass, hp, ih (fun q hq => h q (List.mem_cons_of_mem p hq))]

theorem removeHookPass_first_failure (ps qs : List String) (p : String)
    (hookOk : String → Bool) (hfail : hookOk p = false)
    (hok : ∀ q ∈ ps, hookOk q = true) :
    removeHookPass (ps ++ p :: qs) hookOk =
      (ps.map RemoveEvent.removePluginNativeCode ++ [.removePluginNativeCode p],
        false) := by
  induction ps with
  | nil => simp [removeHookPass, hfail]
  | cons q rest ih =>
    have hq := hok q (List.mem_cons_self q rest)
    simp [removeHookPass, hq, ih (fun r hr => hok r (List.mem_cons_of_mem q hr))]

theorem countP_uninstall_map_hook (ps : List String) :
    (ps.map RemoveEvent.removePluginNativeCode).countP RemoveEvent.isNpmUninstall = 0 := by
  induction ps with
  | nil => rfl
  | cons p rest ih => simp [List.countP_cons, RemoveEvent.isNpmUninstall, ih]

theorem countP_uninstall_map_rm (ps : List String) (name : String) :
    (ps.map (fun p => RemoveEvent.rmPluginDir p name)).countP
      RemoveEvent.isNpmUninstall = 0 := by
  induction ps with
  | nil => rfl
  | cons p rest ih => simp [List.countP_cons, RemoveEvent.isNpmUninstall, ih]

/-- Claim C4 counterexample: with two installed platforms and the first
platform's native-code-removal hook failing, `remove` stops after that
single hook call with a propagated error — the second platform's hook is
never invoked and the package-manager uninstall never happens, while the
claim says the failure is caught and processing continues through the
remaining platform and the uninstall. -/
theorem C4_hook_failure_not_caught :
    remove "nativescript-bar" ["Android", "iOS"] (fun _ => true)
        (fun p => p != "android") =
      ([.removePluginNativeCode "android"], .error ()) := by
  rfl

/-- Claim C4 amended: a failure of one platform's native-code-removal
hook is not caught: the per-platform pass stops at the failing platform,
the platforms after it are not processed, the package-manager uninstall
is not invoked, and the error propagates out of `remove`. -/
theorem C4_hook_failure_aborts_pass (pluginName : String)
    (platformNames : List String) (isInstalled hookOk : String → Bool)
    (ps qs : List String) (p : String)
    (hsplit : installedPlatforms platformNames isInstalled = ps ++ p :: qs)
    (hfail : hookOk p = false) (hok : ∀ q ∈ ps, hookOk q = true) :
    remove pluginName platformNames isInstalled hookOk =
      (ps.map RemoveEvent.removePluginNativeCode ++ [.removePluginNativeCode p],
        .error ()) := by
  simp only [remove]
  rw [hsplit, removeHookPass_first_failure ps qs p hookOk hfail hok]
  simp

theorem C4_hook_failure_aborts_pass_witness :
    remove "nativescript-foo" ["Android", "iOS"] (fun _ => true)
        (fun p => p != "ios") =
      (["android"].map RemoveEvent.removePluginNativeCode
          ++ [.removePluginNativeCode "ios"], .error ()) :=
  C4_hook_failure_aborts_pass "nativescript-foo" ["Android", "iOS"] (fun _ => true)
    (fun p => p != "ios") ["android"] [] "ios" (by decide) (by decide) (by decide)

/-- Claim C8 counterexample: with one installed platform, `remove`
produces the trace hook, uninstall, directory deletion — it does not
match the claimed order in which the directory deletion belongs to the
per-platform pass and the uninstall comes only after it. -/
theorem C8_uninstall_precedes_directory_cleanup :
    (remove "nativescript-baz" ["Android"] (fun _ => true) (fun _ => true)).1 =
      [.removePluginNativeCode "android", .npmUninstall "nativescript-baz",
        .rmPluginDir "android" "nativescript-baz"] ∧
    [RemoveEvent.removePluginNativeCode "android", .npmUninstall "nativescript-baz",
        .rmPluginDir "android" "nativescript-baz"] ≠
      [RemoveEvent.removePluginNativeCode "android",
        .rmPluginDir "android" "nativescript-baz", .npmUninstall "nativescript-baz"] :=
  ⟨by decide, by decide⟩

/-- Claim C8 amended: when every hook succeeds, `remove` performs, in
order, one native-code-removal hook call per installed platform in
platform-enumeration order, then the package-manager uninstall exactly
once (not once per platform), then one leftover-directory deletion per
installed platform. -/
theorem C8_remove_call_order (pluginName : String) (platformNames : List String)
    (isInstalled hookOk : String → Bool)
    (hok : ∀ p ∈ installedPlatforms platformNames isInstalled, hookOk p = true) :
    remove pluginName platformNames isInstalled hookOk =
      ((installedPlatforms platformNames isInstalled).map
            RemoveEvent.removePluginNativeCode
          ++ [.npmUninstall pluginName]
          ++ (installedPlatforms platformNames isInstalled).map
              (fun p => .rmPluginDir p pluginName),
        .ok ()) ∧
    (remove pluginName platformNames isInstalled hookOk).1.countP
        RemoveEvent.isNpmUninstall = 1 := by
  have h1 : remove pluginName platformNames isInstalled hookOk =
      ((installedPlatforms platformNames isInstalled).map
            RemoveEvent.removePluginNativeCode
          ++ [.npmUninstall pluginName]
          ++ (installedPlatforms platformNames isInstalled).map
              (fun p => .rmPluginDir p pluginName),
        .ok ()) := by
    simp only [remove]
    rw [removeHookPass_all_ok _ hookOk hok]
    simp
  refine ⟨h1, ?_⟩
  rw [h1]
  simp only [List.countP_append, List.countP_map]
  have hA : List.countP
      (RemoveEvent.isNpmUninstall ∘ RemoveEvent.removePluginNativeCode)
      (installedPlatforms platformNames isInstalled) = 0 := by
    induction installedPlatforms platformNames isInstalled with
    | nil => rfl
    | cons a t ih => simp [List.countP_cons, Function.comp, RemoveEvent.isNpmUninstall, ih]
  have hB : List.countP
      (RemoveEvent.isNpmUninstall ∘ fun p => RemoveEvent.rmPluginDir p pluginName)
      (installedPlatforms platformNames isInstalled) = 0 := by
    induction installedPlatforms platformNames isInstalled with
    | nil => rfl
    | cons a t ih => simp [List.countP_cons, Function.comp, RemoveEvent.isNpmUninstall, ih]
  simp [hA, hB, List.countP_cons, RemoveEvent.isNpmUninstall]

theorem C8_remove_call_order_witness :
    remove "nativescript-foo2" ["Android", "iOS"] (fun _ => true) (fun _ => true) =
      ((installedPlatforms ["Android", "iOS"] (fun _ => true)).map
            RemoveEvent.removePluginNativeCode
          ++ [.npmUninstall "nativescript-foo2"]
          ++ (installedPlatforms ["Android", "iOS"] (fun _ => true)).map
              (fun p => .rmPluginDir p "nativescript-foo2"),
        .ok ()) ∧
    (remove "nativescript-foo2" ["Android", "iOS"] (fun _ => true)
        (fun _ => true)).1.countP RemoveEvent.isNpmUninstall = 1 :=
  C8_remove_call_order "nativescript-foo2" ["Android", "iOS"] (fun _ => true)
    (fun _ => true) (by decide)

/-! ## Claims about the add flow and the validator -/

/-- Claim C5: installing a specifier whose resulting package lacks the
`nativescript` key makes `add` uninstall the just-installed package by
its resolved name, fail with the validation message that names the
specifier, and leave the manifest without an entry for that package. -/
theorem C5_invalid_plugin_rollback (specifier : String) (env : AddEnv)
    (dependencies : Smap) (h : env.hasNativescriptKey = false) :
    add specifier env dependencies =
      ([.pmInstall specifier, .pmUninstall env.resolvedName],
        pmUninstallSave (pmInstallSave dependencies env.resolvedName env.resolvedVersion)
          env.resolvedName,
        .error (notValidPluginMessage specifier)) ∧
    alookup (pmUninstallSave (pmInstallSave dependencies env.resolvedName env.resolvedVersion)
        env.resolvedName) env.resolvedName = none ∧
    ∃ rest, notValidPluginMessage specifier = specifier ++ rest := by
  refine ⟨?_, ?_, ?_⟩
  · simp [add, h]
  · simp [pmUninstallSave]
  · exact ⟨_, rfl⟩

theorem C5_invalid_plugin_rollback_witness :
    add "moment"
        { resolvedName := "moment", resolvedVersion := "2.24.0",
          hasNativescriptKey := false } [] =
      ([.pmInstall "moment", .pmUninstall "moment"],
        pmUninstallSave (pmInstallSave [] "moment" "2.24.0") "moment",
        .error (notValidPluginMessage "moment")) ∧
    alookup (pmUninstallSave (pmInstallSave [] "moment" "2.24.0") "moment") "moment" = none ∧
    ∃ rest, notValidPluginMessage "moment" = "moment" ++ rest :=
  C5_invalid_plugin_rollback "moment"
    { resolvedName := "moment", resolvedVersion := "2.24.0", hasNativescriptKey := false }
    [] rfl

/-- Claim C6 counterexample: a plugin whose metadata declares no
per-platform requirements mapping at all in particular declares no
requirement for `ios`, so the claim demands a `false` verdict with a
warning; the validator instead returns `true` with no warning, because
the whole check sits inside `if (pluginPlatformsData)`. -/
theorem C6_absent_platforms_mapping_accepted :
    isPluginDataValidForPlatform "nativescript-theme" none "ios" "5.2.0"
        (fun _ _ => false) =
      { isValid := true, warnings := [] } := rfl

/-- Claim C6 amended: when the plugin declares a per-platform
requirements mapping, the check returns false with a "not supported"
warning if the mapping holds no non-empty entry for the platform,
returns false with a warning naming both version strings if the declared
minimum is semver-greater than the installed framework version, and
returns true with no warning otherwise; when the plugin declares no
mapping at all, the check returns true with no warning. -/
theorem C6_validator_case_analysis (pluginName platform installedFrameworkVersion : String)
    (pd : Smap) (semverGt : String → String → Bool) :
    (isPluginDataValidForPlatform pluginName none platform installedFrameworkVersion
        semverGt = { isValid := true, warnings := [] }) ∧
    (alookup pd platform = none →
      isPluginDataValidForPlatform pluginName (some pd) platform
          installedFrameworkVersion semverGt =
        { isValid := false, warnings := [notSupportedWarning pluginName platform] }) ∧
    (alookup pd platform = some "" →
      isPluginDataValidForPlatform pluginName (some pd) platform
          installedFrameworkVersion semverGt =
        { isValid := false, warnings := [notSupportedWarning pluginName platform] }) ∧
    (∀ req, alookup pd platform = some req → req ≠ "" →
      semverGt req installedFrameworkVersion = true →
      isPluginDataValidForPlatform pluginName (some pd) platform
          installedFrameworkVersion semverGt =
        { isValid := false,
          warnings :=
            [minVersionWarning pluginName req platform installedFrameworkVersion] } ∧
      ∃ s t u, minVersionWarning pluginName req platform installedFrameworkVersion =
        s ++ req ++ t ++ installedFrameworkVersion ++ u) ∧
    (∀ req, alookup pd platform = some req → req ≠ "" →
      semverGt req installedFrameworkVersion = false →
      isPluginDataValidForPlatform pluginName (some pd) platform
          installedFrameworkVersion semverGt = { isValid := true, warnings := [] }) := by
  refine ⟨rfl, ?_, ?_, ?_, ?_⟩
  · intro hnone
    simp [isPluginDataValidForPlatform, hnone]
  · intro hempty
    simp [isPluginDataValidForPlatform, hempty]
  · intro req hreq hne hgt
    refine ⟨by simp [isPluginDataValidForPlatform, hreq, hne, hgt], ?_⟩
    exact ⟨pluginName ++ " requires at least version ",
      " of platform " ++ platform ++ ". Currently installed version is ", ".",
      by simp [minVersionWarning, String.append_assoc]⟩
  · intro req hreq hne hngt
    simp [isPluginDataValidForPlatform, hreq, hne, hngt]

theorem C6_validator_case_analysis_witness :
    isPluginDataValidForPlatform "my-plugin" (some [("ios", "6.0.0")]) "ios" "5.2.0"
        (fun _ _ => true) =
      { isValid := false,
        warnings := [minVersionWarning "my-plugin" "6.0.0" "ios" "5.2.0"] } ∧
    ∃ s t u, minVersionWarning "my-plugin" "6.0.0" "ios" "5.2.0" =
      s ++ "6.0.0" ++ t ++ "5.2.0" ++ u :=
  (C6_validator_case_analysis "my-plugin" "ios" "5.2.0" [("ios", "6.0.0")]
    (fun _ _ => true)).2.2.2.1 "6.0.0" (by decide) (by decide) rfl

/-! ## Claims about the manifest mutator -/

theorem removeDependency_devDependencies (name : String) (c : PackageJsonContent) :
    (removeDependencyFromPackageJsonContent name c).packageJsonContent.devDependencies =
      if truthyVersion (sectionLookup c.devDependencies name) then
        c.devDependencies.map (fun m => aerase m name)
      else c.devDependencies := by
  by_cases h1 : truthyVersion (sectionLookup c.devDependencies name) = true <;>
    by_cases h2 : truthyVersion (sectionLookup c.dependencies name) = true <;>
    simp [removeDependencyFromPackageJsonContent, h1, h2]

theorem removeDependency_dependencies (name : String) (c : PackageJsonContent) :
    (removeDependencyFromPackageJsonContent name c).packageJsonContent.dependencies =
      if truthyVersion (sectionLookup c.dependencies name) then
        c.dependencies.map (fun m => aerase m name)
      else c.dependencies := by
  by_cases h1 : truthyVersion (sectionLookup c.devDependencies name) = true <;>
    by_cases h2 : truthyVersion (sectionLookup c.dependencies name) = true <;>
    simp [removeDependencyFromPackageJsonContent, h1, h2]

theorem addToPackageJson_true_dev_self (c : PackageJsonContent) (name v : String) :
    sectionLookup (addToPackageJson name v true c).devDependencies name = some v := by
  by_cases h : truthyVersion (sectionLookup c.dependencies name) = true <;>
    simp [addToPackageJson, h, sectionLookup]

theorem addToPackageJson_false_dep_self (c : PackageJsonContent) (name v : String) :
    sectionLookup (addToPackageJson name v false c).dependencies name = some v := by
  by_cases h : truthyVersion (sectionLookup c.devDependencies name) = true <;>
    simp [addToPackageJson, h, sectionLookup]

theorem addToPackageJson_false_dev_of_truthy (c : PackageJsonContent) (name v : String)
    (h : truthyVersion (sectionLookup c.devDependencies name) = true) :
    sectionLookup (addToPackageJson name v false c).devDependencies name = none := by
  have hdev := removeDependency_devDependencies name c
  rw [h] at hdev
  simp only [if_true] at hdev
  simp [addToPackageJson, h]
  rw [hdev]
  cases hd : c.devDependencies with
  | none => simp [sectionLookup]
  | some m => simp [sectionLookup]

/-- Claim C7 counterexample: with JavaScript truthiness, an entry whose
stored version string is empty is not removed from the opposite section —
`addToPackageJson("p", "", isDev)` followed by
`addToPackageJson("p", "1.0.0", not isDev)` leaves `p` present in both
sections at once, contradicting the claim for version `v = ""`. -/
theorem C7_falsy_version_left_in_both_sections :
    sectionLookup (addToPackageJson "p" "1.0.0" false
        (addToPackageJson "p" "" true
          { dependencies := none, devDependencies := none })).devDependencies "p" =
      some "" ∧
    sectionLookup (addToPackageJson "p" "1.0.0" false
        (addToPackageJson "p" "" true
          { dependencies := none, devDependencies := none })).dependencies "p" =
      some "1.0.0" :=
  ⟨by decide, by decide⟩

/-- Claim C7 amended: for non-empty version strings the claim holds — the
opposite-section entry is removed first (the removal is guarded by the
truthiness of the stored string, so only a non-empty stored version
triggers it), then the target section is set and persisted; in
particular `addEntry(name, v, isDev := true)` with `v ≠ ""` followed by
`addEntry(name, v2, isDev := false)` leaves `name` present only in the
non-dev dependencies section, with version `v2`. -/
theorem C7_add_entry_moves_to_target_section (c : PackageJsonContent)
    (name v v2 : String) (hv : v ≠ "") :
    sectionLookup (addToPackageJson name v2 false
        (addToPackageJson name v true c)).dependencies name = some v2 ∧
    sectionLookup (addToPackageJson name v2 false
        (addToPackageJson name v true c)).devDependencies name = none := by
  have hdev1 : sectionLookup (addToPackageJson name v true c).devDependencies name =
      some v := addToPackageJson_true_dev_self c name v
  have htruthy : truthyVersion
      (sectionLookup (addToPackageJson name v true c).devDependencies name) = true := by
    rw [hdev1]
    simp [truthyVersion, hv]
  exact ⟨addToPackageJson_false_dep_self _ name v2,
    addToPackageJson_false_dev_of_truthy _ name v2 htruthy⟩

theorem C7_add_entry_moves_to_target_section_witness :
    sectionLookup (addToPackageJson "nativescript-dev-webpack" "1.0.0" false
        (addToPackageJson "nativescript-dev-webpack" "0.9.0" true
          { dependencies := none, devDependencies := none })).dependencies
      "nativescript-dev-webpack" = some "1.0.0" ∧
    sectionLookup (addToPackageJson "nativescript-dev-webpack" "1.0.0" false
        (addToPackageJson "nativescript-dev-webpack" "0.9.0" true
          { dependencies := none, devDependencies := none })).devDependencies
      "nativescript-dev-webpack" = none :=
  C7_add_entry_moves_to_target_section
    { dependencies := none, devDependencies := none }
    "nativescript-dev-webpack" "0.9.0" "1.0.0" (by decide)

/-- Claim C9: when the name is present in neither dependency section,
`removeFromPackageJson` performs no file write and the manifest on disk
is unchanged. -/
theorem C9_remove_absent_entry_no_write (plugin : String) (c : PackageJsonContent)
    (hdep : sectionLookup c.dependencies plugin = none)
    (hdev : sectionLookup c.devDependencies plugin = none) :
    removeFromPackageJson plugin c = { diskContent := c, wroteFile := false } := by
  simp [removeFromPackageJson, removeDependencyFromPackageJsonContent,
    hdep, hdev, truthyVersion]

theorem C9_remove_absent_entry_no_write_witness :
    removeFromPackageJson "left-pad"
        { dependencies := some [("nativescript-theme-core", "1.0.4")],
          devDependencies := none } =
      { diskContent :=
          { dependencies := some [("nativescript-theme-core", "1.0.4")],
            devDependencies := none },
        wroteFile := false } :=
  C9_remove_absent_entry_no_write "left-pad"
    { dependencies := some [("nativescript-theme-core", "1.0.4")],
      devDependencies := none } (by decide) (by decide)

end PluginsService
